import Mathlib

/-!
Shallow embedding of the webinar sync pipeline of this repository.

Sources embedded here:
  * `supabase/functions/zoom-sync-webinars-v2/index.ts` (the canonical,
    queue-based resumable sync; called "v2" below), and
  * `supabase/functions/zoom-sync-webinars/index.ts` (the legacy batch sync;
    called "v1" below).

Modelling conventions:
  * time is `Nat` milliseconds (JS `Date.now()` / ISO timestamps);
  * a JS value that may be `undefined`/absent is an `Option`;
  * JS truthiness-based fallbacks (`a || b`) are modelled by `jsOrNat` /
    `jsOrStr` (`0` and `""` are falsy) and by pattern matches for arrays
    (an empty array is truthy in JS);
  * fallible remote calls are oracles returning `Except`/`FetchOutcome`
    values supplied as parameters, so the embedding stays executable;
  * database tables are lists of records inside a `DB` structure, and the
    durable store's upsert (an external collaborator, spec section 6) is the
    composite-key full-overwrite `upsertWebinar` below.
-/

/-- Classification of a remote webinar as already-occurred or scheduled/live
(`webinar_type` in the v2 source). -/
inductive WebinarType
  | past
  | upcoming
deriving DecidableEq, Repr

/-- Nested `settings` object of a raw webinar payload; only the fields used by
the claims are kept (the v2 reconciliation reads dozens more settings fields
with the same `settings?.x || top.x || default` shape). -/
structure WebinarSettings where
  audio : Option String
  auto_recording : Option String
  contact_name : Option String
  contact_email : Option String
deriving DecidableEq, Repr

/-- Raw webinar detail payload returned by the remote detail endpoint
(`fetchWebinarDetails` in the v2 source). Fields not read by any claim are
elided. -/
structure WebinarDetails where
  id : Option String
  uuid : Option String
  topic : Option String
  start_time : Option Nat
  duration : Option Nat
  status : Option String
  registrants_count : Option Nat
  participants_count : Option Nat
  avg_attendance_duration : Option Nat
  audio : Option String
  auto_recording : Option String
  contact_name : Option String
  contact_email : Option String
  tracking_fields : Option (List String)
  settings : Option WebinarSettings
deriving DecidableEq, Repr

/-- A detail payload with every optional field absent (helper for concrete
instances). -/
def emptyDetails : WebinarDetails :=
  { id := none, uuid := none, topic := none, start_time := none, duration := none
  , status := none, registrants_count := none, participants_count := none
  , avg_attendance_duration := none, audio := none, auto_recording := none
  , contact_name := none, contact_email := none, tracking_fields := none
  , settings := none }

/-- JS `a || b` on numbers: `0` and `undefined` are falsy. -/
def jsOrNat (a b : Option Nat) : Option Nat :=
  match a with
  | some n => if n = 0 then b else some n
  | none => b

/-- JS `a || b` on strings: `""` and `undefined` are falsy. -/
def jsOrStr (a b : Option String) : Option String :=
  match a with
  | some s => if s = "" then b else some s
  | none => b

/-- The set of remote-reported statuses passed through unchanged
(`validStatuses` in `determineWebinarStatus`, v2 source line 255). -/
def validStatuses : List String := ["waiting", "started", "finished", "scheduled"]

/-- `webinarDetails.start_time` is present and strictly before the current
instant (v2 source lines 243-251). -/
def startTimeInPast (d : WebinarDetails) (now : Nat) : Bool :=
  match d.start_time with
  | some st => decide (st < now)
  | none => false

/-- The payload carries a status from the allowed set (v2 source lines
254-260; an absent status is falsy in JS). -/
def payloadCarriesValidStatus (d : WebinarDetails) : Bool :=
  match d.status with
  | some s => decide (s ∈ validStatuses)
  | none => false

/-- `determineWebinarStatus` (v2 source lines 233-265): derive the stored
status from the payload, resource kind and current time. -/
def determineWebinarStatus (d : WebinarDetails) (t : WebinarType) (now : Nat) : String :=
  if t = WebinarType.past then "finished"
  else if startTimeInPast d now then "finished"
  else
    match d.status with
    | some s => if s ∈ validStatuses then s else "scheduled"
    | none => "scheduled"

/-- `RateLimitManager.MAX_CALLS_PER_MINUTE` (v2 source line 29). -/
def MAX_CALLS_PER_MINUTE : Nat := 30

/-- `RateLimitManager.MAX_CALLS_PER_SECOND` (v2 source line 30). -/
def MAX_CALLS_PER_SECOND : Nat := 2

/-- Mutable state of `RateLimitManager` (v2 source lines 24-31) together with
the ambient clock (`Date.now()`), in milliseconds. `retryAfter` is the
blocked-until timestamp set on a 429. -/
structure RLState where
  callsPerMinute : Nat
  callsPerSecond : Nat
  windowStart : Nat
  secondWindowStart : Nat
  retryAfter : Nat
  clock : Nat
deriving DecidableEq, Repr

/-- `RateLimitManager.recordCall` (v2 source lines 94-97): increment both
counters. -/
def recordCall (s : RLState) : RLState :=
  { s with callsPerMinute := s.callsPerMinute + 1, callsPerSecond := s.callsPerSecond + 1 }

/-- `RateLimitManager.waitForRateLimit` (v2 source lines 54-92). An `await`
of `setTimeout` is modelled as advancing the clock. The retry-after branch
returns early, skipping the counter checks, exactly as in the source. `now`
is the single `Date.now()` read at the top of the function body. -/
def waitForRateLimit (s : RLState) : RLState :=
  if s.clock < s.retryAfter then
    { s with clock := s.retryAfter }
  else
    let now := s.clock
    let s1 := if 60000 < now - s.windowStart
      then { s with callsPerMinute := 0, windowStart := now } else s
    let s2 := if 1000 < now - s1.secondWindowStart
      then { s1 with callsPerSecond := 0, secondWindowStart := now } else s1
    let s3 :=
      if MAX_CALLS_PER_SECOND ≤ s2.callsPerSecond then
        let waitTime : Int := 1000 - ((now : Int) - (s2.secondWindowStart : Int))
        if 0 < waitTime then
          { s2 with clock := s2.clock + waitTime.toNat, callsPerSecond := 0,
                    secondWindowStart := s2.clock + waitTime.toNat }
        else s2
      else s2
    if MAX_CALLS_PER_MINUTE ≤ s3.callsPerMinute then
      let waitTime : Int := 60000 - ((now : Int) - (s3.windowStart : Int))
      if 0 < waitTime then
        { s3 with clock := s3.clock + waitTime.toNat, callsPerMinute := 0,
                  windowStart := s3.clock + waitTime.toNat }
      else s3
    else s3

/-- Outcome of one invocation of the wrapped operation inside
`executeWithRateLimit`: success, a 429 rejection carrying the optional
`retry-after` header (seconds), or another error. -/
inductive CallOutcome
  | ok
  | rl429 (retryAfterHeader : Option Nat)
  | err (msg : String)
deriving DecidableEq, Repr

/-- `RateLimitManager.executeWithRateLimit` (v2 source lines 33-52), driven
by the trace of outcomes the wrapped operation produces on successive
invocations. On a 429 the code sets the blocked-until timestamp to
`now + retryAfter*1000` (header defaulting to 60 seconds), awaits that long,
and recursively retries; a success calls `recordCall`; any other error is
rethrown. An exhausted trace (empty list) is a model artifact standing for
"no further invocation happens". -/
def executeWithRateLimit : List CallOutcome → RLState → Except String Unit × RLState
  | [], s => (Except.error "operation not invoked", s)
  | o :: rest, s =>
    let s1 := waitForRateLimit s
    match o with
    | CallOutcome.ok => (Except.ok (), recordCall s1)
    | CallOutcome.err e => (Except.error e, s1)
    | CallOutcome.rl429 hdr =>
      let ra := hdr.getD 60
      let s2 := { s1 with retryAfter := s1.clock + ra * 1000 }
      let s3 := { s2 with clock := s2.clock + ra * 1000 }
      executeWithRateLimit rest s3

/-- One response of the paginated list endpoint: a page of webinar ids plus
the optional continuation token (`next_page_token`; `none` models an absent
token or the falsy `''`). -/
structure ListPage where
  webinars : List String
  next_page_token : Option String
deriving DecidableEq, Repr

/-- `maxPages` of `ZoomWebinarSyncService.fetchWebinars` (v1 source line 64). -/
def maxPages : Nat := 10

/-- Loop body of `ZoomWebinarSyncService.fetchWebinars` (v1 source lines
60-88): `do { pageCount++; fetch; accumulate } while (token && pageCount <
maxPages)`. `budget` is `maxPages - pageCount`, so the recursion is
structural; `pageCount` counts list calls issued so far and the endpoint maps
a page index to its response. Returns the accumulated ids and the number of
list calls issued. -/
def fetchWebinarsV1Go (endpoint : Nat → ListPage) :
    Nat → Nat → List String → List String × Nat
  | 0, pageCount, acc => (acc, pageCount)
  | budget + 1, pageCount, acc =>
    let page := endpoint pageCount
    let acc2 := acc ++ page.webinars
    match page.next_page_token with
    | none => (acc2, pageCount + 1)
    | some _ => fetchWebinarsV1Go endpoint budget (pageCount + 1) acc2

/-- `ZoomWebinarSyncService.fetchWebinars` (v1 source lines 60-88). -/
def fetchWebinarsV1 (endpoint : Nat → ListPage) : List String × Nat :=
  fetchWebinarsV1Go endpoint maxPages 0 []

/-- Enumeration pagination loop of the v2 `serve` handler (v2 source lines
800-827 and 837-864): `do { fetch; accumulate; pageCount++ } while
(nextPageToken)` — the source increments `pageCount` but never checks it, so
the loop has no page ceiling. `fuel` is a model device bounding the
evaluation: the first component is `none` when the loop is still polling
after `fuel` list calls, and `some` of the accumulated ids when the loop
exited because the token was absent. The second component is the number of
list calls issued. -/
def fetchPagesV2Go (endpoint : Nat → ListPage) :
    Nat → Nat → List String → Option (List String) × Nat
  | 0, pageCount, _ => (none, pageCount)
  | fuel + 1, pageCount, acc =>
    let page := endpoint pageCount
    let acc2 := acc ++ page.webinars
    match page.next_page_token with
    | none => (some acc2, pageCount + 1)
    | some _ => fetchPagesV2Go endpoint fuel (pageCount + 1) acc2

/-- An adversarial list endpoint that returns a continuation token on every
call. -/
def alwaysTokenEndpoint : Nat → ListPage :=
  fun _ => { webinars := [], next_page_token := some "more" }

/-- Outcome of one auxiliary sub-resource fetch: a parsed 2xx response body,
a non-2xx HTTP response (`response.ok` false), or a thrown exception
(network failure or a non-429 error rethrown by the rate limiter). -/
inductive FetchOutcome (α : Type)
  | ok (body : α)
  | httpError
  | thrown
deriving DecidableEq, Repr

/-- Body of the registrants listing response used by `fetchRegistrantCount`
(v2 source lines 327-331). -/
structure RegistrantsPage where
  total_records : Option Nat
deriving DecidableEq, Repr

/-- One participant entry of the participants listing (v2 source lines
369-374). -/
structure Participant where
  duration : Option Nat
deriving DecidableEq, Repr

/-- Body of the participants listing response used by `fetchParticipantData`
(v2 source lines 360-379). -/
structure ParticipantsPage where
  total_records : Option Nat
  participants : Option (List Participant)
deriving DecidableEq, Repr

/-- Body of the tracking-sources response (v2 source lines 422-426). -/
structure TrackingPage where
  tracking_sources : Option (List String)
deriving DecidableEq, Repr

/-- Body of the polls / Q&A responses (v2 source lines 444-448 and 463-467;
both read `data.questions`). -/
structure QuestionsPage where
  questions : Option (List String)
deriving DecidableEq, Repr

/-- `Math.round (t / v)` on naturals for `v > 0`: JS float division followed
by round-half-up (v2 source line 376). -/
def roundDiv (t v : Nat) : Nat := (2 * t + v) / (2 * v)

/-- `fetchRegistrantCount` (v2 source lines 310-340): `data.total_records ||
0` on a 2xx response, and 0 on a non-2xx response or a thrown error. -/
def fetchRegistrantCount (o : FetchOutcome RegistrantsPage) : Nat :=
  match o with
  | FetchOutcome.ok d => d.total_records.getD 0
  | FetchOutcome.httpError => 0
  | FetchOutcome.thrown => 0

/-- `fetchParticipantData` (v2 source lines 343-388): on a 2xx response the
count is `data.total_records || participants.length` and the average duration
is the rounded mean over participants with a positive duration; on a non-2xx
response or a thrown error both default to 0. -/
def fetchParticipantData (o : FetchOutcome ParticipantsPage) : Nat × Nat :=
  match o with
  | FetchOutcome.ok d =>
    let participants := d.participants.getD []
    let count :=
      match d.total_records with
      | some n => if n = 0 then participants.length else n
      | none => participants.length
    let valid := participants.filter (fun p =>
      match p.duration with
      | some dur => decide (0 < dur)
      | none => false)
    let totalDuration := (valid.map (fun p => p.duration.getD 0)).sum
    let avgDuration := if 0 < valid.length then roundDiv totalDuration valid.length else 0
    (count, avgDuration)
  | FetchOutcome.httpError => (0, 0)
  | FetchOutcome.thrown => (0, 0)

/-- The computed auxiliary bundle (`additionalData` in `processWebinar`).
A `none` in an optional field means the JS object key was never assigned
(`undefined`), which happens when the corresponding fetch threw — the
`catch` around each list fetch only logs, leaving the field absent. -/
structure AdditionalData where
  registrantCount : Nat
  participantCount : Option Nat
  avgAttendanceDuration : Option Nat
  trackingSources : Option (List String)
  polls : Option (List String)
  qa : Option (List String)
deriving DecidableEq, Repr

/-- The five auxiliary fetch outcomes one work item's enrichment consumes. -/
structure AuxBundle where
  reg : FetchOutcome RegistrantsPage
  part : FetchOutcome ParticipantsPage
  track : FetchOutcome TrackingPage
  polls : FetchOutcome QuestionsPage
  qa : FetchOutcome QuestionsPage

/-- An auxiliary bundle where every fetch succeeds with an empty body. -/
def emptyAuxBundle : AuxBundle :=
  { reg := FetchOutcome.ok { total_records := none }
  , part := FetchOutcome.ok { total_records := none, participants := none }
  , track := FetchOutcome.ok { tracking_sources := none }
  , polls := FetchOutcome.ok { questions := none }
  , qa := FetchOutcome.ok { questions := none } }

/-- `fetchAdditionalWebinarData` (v2 source lines 391-476): registrant count
for all webinars; participant count and average duration for past webinars
only; tracking sources for upcoming only; polls and Q&A for past only. For
the three list fetches a 2xx response yields `data.x || []`, a non-2xx
response yields `[]` from inside the rate-limited closure, and a thrown
error is caught by a logging `catch` that leaves the field unassigned. -/
def fetchAdditionalWebinarData (t : WebinarType) (b : AuxBundle) : AdditionalData :=
  let registrantCount := fetchRegistrantCount b.reg
  let pd : Option (Nat × Nat) :=
    if t = WebinarType.past then some (fetchParticipantData b.part) else none
  let trackingSources : Option (List String) :=
    if t = WebinarType.upcoming then
      match b.track with
      | FetchOutcome.ok d => some (d.tracking_sources.getD [])
      | FetchOutcome.httpError => some []
      | FetchOutcome.thrown => none
    else none
  let pollsResult : Option (List String) :=
    if t = WebinarType.past then
      match b.polls with
      | FetchOutcome.ok d => some (d.questions.getD [])
      | FetchOutcome.httpError => some []
      | FetchOutcome.thrown => none
    else none
  let qaResult : Option (List String) :=
    if t = WebinarType.past then
      match b.qa with
      | FetchOutcome.ok d => some (d.questions.getD [])
      | FetchOutcome.httpError => some []
      | FetchOutcome.thrown => none
    else none
  { registrantCount := registrantCount
  , participantCount := pd.map Prod.fst
  , avgAttendanceDuration := pd.map Prod.snd
  , trackingSources := trackingSources
  , polls := pollsResult
  , qa := qaResult }

/-- The canonical stored webinar row built by `processWebinar` (v2 source
lines 519-631). The natural key is `(webinar_id, connection_id)`. Only the
fields a claim touches are kept; the remaining ~35 settings fields follow the
same `settings?.x || top.x || default` coalescing and are elided. The raw
payload and the auxiliary bundle are preserved (the `additional_data`
column). -/
structure WebinarRecord where
  webinar_id : Option String
  webinar_uuid : Option String
  connection_id : String
  topic : Option String
  start_time : Option Nat
  duration : Nat
  status : String
  total_registrants : Nat
  total_attendees : Nat
  avg_attendance_duration : Nat
  audio : String
  auto_recording : String
  contact_name : Option String
  contact_email : Option String
  tracking_fields : Option (List String)
  additional_raw : WebinarDetails
  additional_aux : AdditionalData
  synced_at : Nat
  sync_status : String
  participant_sync_status : String
deriving DecidableEq, Repr

/-- The field mapping of `processWebinar` (v2 source lines 519-631): build
the record to upsert from the detail payload, the auxiliary bundle, the
resource kind and the already-determined status. Each line mirrors the
corresponding JS `||` fallback chain. -/
def buildWebinarData (d : WebinarDetails) (auxd : AdditionalData) (t : WebinarType)
    (cid : String) (now : Nat) (status : String) : WebinarRecord :=
  { webinar_id := jsOrStr d.id d.uuid
  , webinar_uuid := jsOrStr d.uuid (jsOrStr d.id (some ("webinar-" ++ d.id.getD "undefined")))
  , connection_id := cid
  , topic := d.topic
  , start_time := d.start_time
  , duration := (jsOrNat d.duration (some 0)).getD 0
  , status := status
  , total_registrants :=
      (jsOrNat (some auxd.registrantCount) (jsOrNat d.registrants_count (some 0))).getD 0
  , total_attendees :=
      (jsOrNat auxd.participantCount (jsOrNat d.participants_count (some 0))).getD 0
  , avg_attendance_duration :=
      (jsOrNat auxd.avgAttendanceDuration (jsOrNat d.avg_attendance_duration (some 0))).getD 0
  , audio :=
      (jsOrStr (d.settings.bind WebinarSettings.audio) (jsOrStr d.audio (some "both"))).getD "both"
  , auto_recording :=
      (jsOrStr (d.settings.bind WebinarSettings.auto_recording)
        (jsOrStr d.auto_recording (some "none"))).getD "none"
  , contact_name :=
      jsOrStr (jsOrStr (d.settings.bind WebinarSettings.contact_name) d.contact_name) none
  , contact_email :=
      jsOrStr (jsOrStr (d.settings.bind WebinarSettings.contact_email) d.contact_email) none
  , tracking_fields :=
      match d.tracking_fields with
      | some l => some l
      | none => auxd.trackingSources
  , additional_raw := d
  , additional_aux := auxd
  , synced_at := now
  , sync_status := "synced"
  , participant_sync_status := if t = WebinarType.past then "pending" else "not_applicable" }

/-- The rows share the natural key `(webinar_id, connection_id)` — the
conflict target `onConflict: 'webinar_id,connection_id'` of the v2 upsert
(source lines 643-647) and `'connection_id,webinar_id'` of the v1 upsert
(source lines 113-116). -/
def sameWebinarKey (a b : WebinarRecord) : Bool :=
  a.webinar_id == b.webinar_id && a.connection_id == b.connection_id

/-- Modelled from the spec: the durable store's relational upsert (an
external collaborator, spec sections 4.4 and 6) invoked by `processWebinar`
with the composite conflict target — a conflicting existing row is fully
overwritten (last-write-wins), otherwise the row is inserted. -/
def upsertWebinar (store : List WebinarRecord) (w : WebinarRecord) : List WebinarRecord :=
  if store.any (fun r => sameWebinarKey r w) then
    store.map (fun r => if sameWebinarKey r w then w else r)
  else
    store ++ [w]

/-- A store has no two rows with the same natural key. -/
def KeyNodup (store : List WebinarRecord) : Prop :=
  store.Pairwise (fun a b => sameWebinarKey a b = false)

/-- One row of the `webinar_sync_queue` table (a WorkItem). `rid` is the
database-generated row id (`id` column) used as the update key by the drain
loop. -/
structure QueueRow where
  rid : Nat
  sync_id : Nat
  webinar_id : String
  webinar_type : WebinarType
  priority : Nat
  scheduled_at : Nat
  processing_status : String
  retry_count : Nat
  error_message : Option String
  started_at : Option Nat
  completed_at : Option Nat
deriving DecidableEq, Repr

/-- One row of the `zoom_sync_logs` table (a SyncRun). -/
structure SyncLog where
  id : Nat
  connection_id : String
  status : String
  sync_type : String
  webinars_synced : Option Nat
deriving DecidableEq, Repr

/-- One row of the `sync_state` table. -/
structure SyncStateRow where
  sync_id : Nat
  total_items : Nat
  processed_items : Nat
deriving DecidableEq, Repr

/-- One row of the `sync_progress_updates` table (a ProgressEvent), appended
by `broadcastProgress` (v2 source lines 101-120). The float percentage of
the source is modelled with integer division. -/
structure ProgressEvent where
  sync_id : Nat
  update_type : String
  message : String
  progress_percentage : Option Nat
deriving DecidableEq, Repr

/-- The durable store: the tables the v2 sync touches, plus two pieces of
model bookkeeping — `fetched` records each webinar id whose detail endpoint
was called (the observable remote side-effect of `fetchWebinarDetails`), and
`nextRid` supplies fresh database row ids for queue inserts. -/
structure DB where
  logs : List SyncLog
  queue : List QueueRow
  webinars : List WebinarRecord
  syncState : List SyncStateRow
  events : List ProgressEvent
  fetched : List String
  nextRid : Nat
deriving DecidableEq, Repr

/-- Constructor of one `sync_progress_updates` row. -/
def mkEvent (sid : Nat) (t msg : String) (pct : Option Nat) : ProgressEvent :=
  { sync_id := sid, update_type := t, message := msg, progress_percentage := pct }

/-- `broadcastProgress` (v2 source lines 101-120): append one progress event
(failures there are swallowed, so the model is total). -/
def broadcast (db : DB) (sid : Nat) (t msg : String) (pct : Option Nat) : DB :=
  { db with events := db.events ++ [mkEvent sid t msg pct] }

/-- A row-level `update ... .eq('id', rid)` on the queue table. -/
def updateQueueRow (db : DB) (rid : Nat) (f : QueueRow → QueueRow) : DB :=
  { db with queue := db.queue.map (fun r => if r.rid == rid then f r else r) }

/-- `select ... .eq('id', rid) .single()` on the queue table. -/
def rowById (q : List QueueRow) (rid : Nat) : Option QueueRow :=
  q.find? (fun r => r.rid == rid)

/-- The queue insert of the v2 enumeration phase (source lines 880-896):
one row per enumerated webinar with `priority: 5` and `scheduled_at` the
insertion timestamp; `processing_status`/`retry_count` take the table
defaults `'pending'`/`0`. The source's map index is unused there; here the
index supplies the database-generated row id. -/
def mkQueueRows (sid : Nat) (ws : List (String × WebinarType)) (now baseRid : Nat) :
    List QueueRow :=
  ws.enum.map (fun p =>
    { rid := baseRid + p.1, sync_id := sid, webinar_id := p.2.1,
      webinar_type := p.2.2, priority := 5, scheduled_at := now,
      processing_status := "pending", retry_count := 0, error_message := none,
      started_at := none, completed_at := none })

/-- The drain order of the v2 queue select (source lines 913-919):
`priority` descending, then `scheduled_at` ascending. `drainLE a b` says `a`
comes no later than `b`. -/
def drainLE (a b : QueueRow) : Bool :=
  decide (b.priority < a.priority) ||
    (decide (a.priority = b.priority) && decide (a.scheduled_at ≤ b.scheduled_at))

/-- Insertion step of the ordered queue select. -/
def insertByDrain (x : QueueRow) : List QueueRow → List QueueRow
  | [] => [x]
  | y :: ys => if drainLE x y then x :: y :: ys else y :: insertByDrain x ys

/-- The ordered queue select (insertion sort by `drainLE`). -/
def orderQueue : List QueueRow → List QueueRow
  | [] => []
  | x :: xs => insertByDrain x (orderQueue xs)

/-- The inbound sync request (v2 source lines 7-15; `dateRange` only shapes
the remote query window and is elided). -/
structure SyncRequest where
  connectionId : Option String
  syncMode : String
  resumeSyncId : Option Nat
deriving DecidableEq, Repr

/-- The JSON body and status of the HTTP response; `none` means the field is
absent from the body. -/
structure HttpResponse where
  status : Nat
  success : Option Bool
  syncId : Option Nat
  webinarsSynced : Option Nat
  message : Option String
  error : Option String
deriving DecidableEq, Repr

/-- The v2 success response (source lines 988-999). -/
def successResponse (sid total : Nat) : HttpResponse :=
  { status := 200, success := some true, syncId := some sid,
    webinarsSynced := some total, message := some "Sync completed successfully",
    error := none }

/-- The v2 failure response (source lines 1005-1013): status 500 with only an
`error` field (`error.message || 'An error occurred during sync'`). -/
def failureResponse (msg : String) : HttpResponse :=
  { status := 500, success := none, syncId := none, webinarsSynced := none,
    message := none,
    error := some ((jsOrStr (some msg) (some "An error occurred during sync")).getD "") }

/-- The external world one v2 request runs against: the clock, the id the
database would assign to a newly inserted sync log, whether that insert
succeeds, the credential-resolution outcome, the enumeration outcome (the
past and upcoming id lists, or the thrown listing error), whether the queue
insert succeeds, and the per-webinar detail/auxiliary oracles. -/
structure Env where
  now : Nat
  freshLogId : Nat
  createLogOk : Bool
  tokenResult : Except String Unit
  listResult : Except String (List String × List String)
  queueInsertOk : Bool
  detail : String → Except String WebinarDetails
  auxData : String → AuxBundle

/-- `processWebinar` (v2 source lines 479-704): mark the item processing,
fetch the detail (recorded in `fetched`; a throw is the item's failure),
fetch the auxiliary bundle, determine the status, build and upsert the
record, mark the item completed and broadcast — or, in the catch branch,
mark the item failed (recording the error message and incrementing
`retry_count` from the snapshot row) and broadcast an error event. The
store-upsert error path follows the same catch branch and is elided; the
returned flag is true iff the item succeeded. -/
def processWebinar (det : String → Except String WebinarDetails)
    (auxo : String → AuxBundle) (item : QueueRow) (db : DB)
    (cid : String) (sid now : Nat) : DB × Bool :=
  let db1 := updateQueueRow db item.rid (fun r =>
    { r with processing_status := "processing", started_at := some now })
  let db2 := { db1 with fetched := db1.fetched ++ [item.webinar_id] }
  match det item.webinar_id with
  | Except.ok d =>
    let auxd := fetchAdditionalWebinarData item.webinar_type (auxo item.webinar_id)
    let status := determineWebinarStatus d item.webinar_type now
    let w := buildWebinarData d auxd item.webinar_type cid now status
    let db3 := { db2 with webinars := upsertWebinar db2.webinars w }
    let db4 := updateQueueRow db3 item.rid (fun r =>
      { r with processing_status := "completed", completed_at := some now })
    let db5 := broadcast db4 sid "webinar"
      ("Processed webinar: " ++ d.topic.getD "") none
    (db5, true)
  | Except.error e =>
    let db3 := updateQueueRow db2 item.rid (fun r =>
      { r with processing_status := "failed", error_message := some e,
               retry_count := item.retry_count + 1 })
    let db4 := broadcast db3 sid "error"
      ("Failed to process webinar " ++ item.webinar_id ++ ": " ++ e) none
    (db4, false)

/-- `update` of `sync_state.processed_items` inside the drain loop (v2
source lines 941-951). -/
def updateSyncStateProcessed (db : DB) (sid p : Nat) : DB :=
  { db with syncState := db.syncState.map (fun s =>
      if s.sync_id == sid then { s with processed_items := p } else s) }

/-- The drain loop of the v2 `serve` handler (source lines 921-957): process
each queued item in order; a success bumps `processedCount`, broadcasts a
progress event (percentage 15 + 80·processed/total) and updates
`sync_state`; a failure was already recorded by `processWebinar`'s catch and
only bumps `failedCount` — the loop continues with the next item either
way. Returns the final store and the two counters. -/
def drainGo (det : String → Except String WebinarDetails) (auxo : String → AuxBundle)
    (cid : String) (sid now total : Nat) :
    List QueueRow → DB → Nat → Nat → DB × Nat × Nat
  | [], db, p, f => (db, p, f)
  | item :: rest, db, p, f =>
    let r := processWebinar det auxo item db cid sid now
    if r.2 then
      let db2 := broadcast r.1 sid "progress"
        ("Processing webinars... (" ++ toString (p + 1) ++ "/" ++ toString total ++ ")")
        (some (15 + 80 * (p + 1) / total))
      let db3 := updateSyncStateProcessed db2 sid (p + 1)
      drainGo det auxo cid sid now total rest db3 (p + 1) f
    else
      drainGo det auxo cid sid now total rest r.1 p (f + 1)

/-- The `sync_state` upsert after queueing (v2 source lines 898-908):
`processed_items` is reset to 0 even when resuming. -/
def upsertSyncState (db : DB) (sid total : Nat) : DB :=
  if db.syncState.any (fun s => s.sync_id == sid) then
    { db with syncState := db.syncState.map (fun s =>
        if s.sync_id == sid
        then { s with total_items := total, processed_items := 0 } else s) }
  else
    let row : SyncStateRow := { sync_id := sid, total_items := total, processed_items := 0 }
    { db with syncState := db.syncState ++ [row] }

/-- Phase 4 of the v2 `serve` handler (source lines 963-975): mark the run
completed with the enumerated webinar count, unconditionally. -/
def completeLog (db : DB) (sid total : Nat) : DB :=
  { db with logs := db.logs.map (fun l =>
      if l.id == sid
      then { l with status := "completed", webinars_synced := some total } else l) }

/-- The body of the v2 `serve` handler after sync initialization (source
lines 775-999): resolve the credential, enumerate both kinds (the per-page
progress broadcasts are elided; the pagination loops are modelled separately
by `fetchPagesV2Go`), insert the queue rows, upsert `sync_state`, drain the
pending items in order and complete the run. Errors short-circuit to the
outer catch, carrying the store as mutated so far. -/
def serveAfterInit (cid : String) (sid : Nat) (env : Env) (db : DB) :
    Except (DB × String) (DB × Nat × Nat) :=
  match env.tokenResult with
  | Except.error e => Except.error (db, e)
  | Except.ok _ =>
    let dbA := broadcast db sid "status" "Fetching webinar lists..." (some 0)
    match env.listResult with
    | Except.error e => Except.error (dbA, e)
    | Except.ok lists =>
      let allW : List (String × WebinarType) :=
        lists.1.map (fun w => (w, WebinarType.past)) ++
          lists.2.map (fun w => (w, WebinarType.upcoming))
      let dbB := broadcast dbA sid "status"
        ("Queuing " ++ toString allW.length ++ " webinars for processing...") (some 15)
      if 0 < allW.length ∧ env.queueInsertOk = false then
        Except.error (dbB, "Failed to queue webinars")
      else
        let rows := mkQueueRows sid allW env.now dbB.nextRid
        let dbC := if 0 < allW.length
          then { dbB with queue := dbB.queue ++ rows, nextRid := dbB.nextRid + rows.length }
          else dbB
        let dbD := upsertSyncState dbC sid allW.length
        let snapshot := orderQueue (dbD.queue.filter (fun r =>
          r.sync_id == sid && r.processing_status == "pending"))
        let dr := drainGo env.detail env.auxData cid sid env.now snapshot.length
          snapshot dbD 0 0
        let dbE := completeLog dr.1 sid allW.length
        let dbF := broadcast dbE sid "status"
          ("Sync completed successfully! Processed " ++ toString allW.length ++ " webinars.")
          (some 100)
        Except.ok (dbF, sid, allW.length)

/-- The v2 `serve` handler body before credential resolution (source lines
712-773): validate the connection id, reattach to the supplied sync id on
resume (broadcasting when a `sync_state` row exists; the loaded state is
otherwise unused by the source) or insert a fresh running sync log. -/
def serveBody (req : SyncRequest) (env : Env) (db0 : DB) :
    Except (DB × String) (DB × Nat × Nat) :=
  match req.connectionId with
  | none => Except.error (db0, "Connection ID is required")
  | some cid =>
    match req.resumeSyncId with
    | some rid =>
      let db1 := if db0.syncState.any (fun s => s.sync_id == rid)
        then broadcast db0 rid "status" "Resuming sync..." none
        else db0
      serveAfterInit cid rid env db1
    | none =>
      if env.createLogOk then
        let sid := env.freshLogId
        let newLog : SyncLog :=
          { id := sid, connection_id := cid, status := "running",
            sync_type := req.syncMode, webinars_synced := none }
        let db1 := { db0 with logs := db0.logs ++ [newLog] }
        let db2 := broadcast db1 sid "status" "Starting new sync..." none
        serveAfterInit cid sid env db2
      else Except.error (db0, "Failed to create sync log")

/-- Result of one v2 request: the store as left behind and the HTTP
response. -/
structure ServeResult where
  db : DB
  response : HttpResponse
deriving DecidableEq, Repr

/-- The v2 `serve` handler (source lines 707-1015): run the body; the outer
catch turns any thrown error into the 500 response and — notably — performs
no store write at all. -/
def serveModel (req : SyncRequest) (env : Env) (db0 : DB) : ServeResult :=
  match serveBody req env db0 with
  | Except.ok r => { db := r.1, response := successResponse r.2.1 r.2.2 }
  | Except.error r => { db := r.1, response := failureResponse r.2 }

/-- First row of a two-item sample enumeration (for the `c10` witness). -/
def sampleRowA : QueueRow :=
  { rid := 1, sync_id := 1, webinar_id := "w1", webinar_type := WebinarType.past,
    priority := 5, scheduled_at := 7, processing_status := "pending", retry_count := 0,
    error_message := none, started_at := none, completed_at := none }

/-- Second row of a two-item sample enumeration (for the `c10` witness). -/
def sampleRowB : QueueRow :=
  { rid := 2, sync_id := 1, webinar_id := "w2", webinar_type := WebinarType.upcoming,
    priority := 5, scheduled_at := 7, processing_status := "pending", retry_count := 0,
    error_message := none, started_at := none, completed_at := none }

/-- An auxiliary bundle whose registrant and participant fetches both threw
(for the `c5` witness). -/
def thrownAuxBundle : AuxBundle :=
  { emptyAuxBundle with reg := FetchOutcome.thrown, part := FetchOutcome.thrown }

/-- A one-row store for the `c5` witness. -/
def sampleDB : DB :=
  { logs := [], queue := [sampleRowA], webinars := [], syncState := [],
    events := [], fetched := [], nextRid := 3 }

/-- An empty store. -/
def emptyDB : DB :=
  { logs := [], queue := [], webinars := [], syncState := [], events := [],
    fetched := [], nextRid := 1 }

/-- An environment where every external step succeeds. -/
def okEnv : Env :=
  { now := 100, freshLogId := 99, createLogOk := true, tokenResult := Except.ok ()
  , listResult := Except.ok (["w1"], []), queueInsertOk := true
  , detail := fun _ => Except.ok emptyDetails
  , auxData := fun _ => emptyAuxBundle }

/-- `okEnv` with a failing credential resolution. -/
def tokenFailEnv : Env :=
  { okEnv with tokenResult := Except.error "Failed to decrypt access token" }

/-- `okEnv` with a failing enumeration listing. -/
def listFailEnv : Env :=
  { okEnv with listResult := Except.error "Failed to fetch webinar list" }

/-- A fresh (non-resuming) request. -/
def freshReq : SyncRequest :=
  { connectionId := some "conn", syncMode := "full", resumeSyncId := none }

/-- The store of an interrupted run 1: ten enumerated webinars `w1..w10`,
items `w1`,`w2` already completed, `w3..w10` still pending, with the
matching `sync_state` row. -/
def interruptedDB : DB :=
  { logs := [{ id := 1, connection_id := "conn", status := "running",
               sync_type := "full", webinars_synced := none }]
  , queue := (List.range 10).map (fun i =>
      { rid := i + 1, sync_id := 1, webinar_id := "w" ++ toString (i + 1),
        webinar_type := WebinarType.past, priority := 5, scheduled_at := 50,
        processing_status := if i < 2 then "completed" else "pending",
        retry_count := 0, error_message := none, started_at := none,
        completed_at := none })
  , webinars := [], syncState := [{ sync_id := 1, total_items := 10, processed_items := 2 }]
  , events := [], fetched := [], nextRid := 11 }

/-- The environment of the resumed run: the remote enumeration returns the
same ten webinar ids and every detail fetch succeeds. -/
def resumeEnv : Env :=
  { now := 100, freshLogId := 99, createLogOk := true, tokenResult := Except.ok ()
  , listResult := Except.ok ((List.range 10).map (fun i => "w" ++ toString (i + 1)), [])
  , queueInsertOk := true
  , detail := fun wid => Except.ok { emptyDetails with id := some wid }
  , auxData := fun _ => emptyAuxBundle }

/-- The resume request reattaching to run 1. -/
def resumeReq : SyncRequest :=
  { connectionId := some "conn", syncMode := "full", resumeSyncId := some 1 }

/-- The terminal state of a failed work item: status `"failed"`, the error
message recorded, `retry_count` incremented from the snapshot row, the
processing start stamp kept (v2 source lines 683-690). -/
def failedRow (item : QueueRow) (now : Nat) (e : String) : QueueRow :=
  { item with
      processing_status := "failed",
      started_at := some now,
      error_message := some e,
      retry_count := item.retry_count + 1 }

/-- The failing second row of the `c3` witness batch. -/
def rowW2 : QueueRow := { sampleRowA with rid := 2, webinar_id := "w2" }

/-- The three-row snapshot of the `c3` witness: items `w1`, `w2`, `w3`. -/
def threeRows : List QueueRow :=
  [sampleRowA, rowW2, { sampleRowA with rid := 3, webinar_id := "w3" }]

/-- The store holding the `c3` witness batch. -/
def threeRowDB : DB :=
  { logs := [], queue := threeRows, webinars := [], syncState := [], events := [],
    fetched := [], nextRid := 4 }

/-- A detail oracle that throws exactly on webinar `w2`. -/
def failW2 : String → Except String WebinarDetails :=
  fun wid => if wid == "w2" then Except.error "boom" else Except.ok emptyDetails

/-- C1: the status always follows the four-step algorithm in order: `past`
kind forces `"finished"`; otherwise a start time strictly in the past forces
`"finished"`; otherwise a valid remote-reported status passes through
unchanged; otherwise the default is `"scheduled"`. -/
theorem c1_status_algorithm (d : WebinarDetails) (t : WebinarType) (now : Nat) :
    (t = WebinarType.past → determineWebinarStatus d t now = "finished") ∧
    (t ≠ WebinarType.past → startTimeInPast d now = true →
      determineWebinarStatus d t now = "finished") ∧
    (∀ s : String, t ≠ WebinarType.past → startTimeInPast d now = false →
      d.status = some s → s ∈ validStatuses → determineWebinarStatus d t now = s) ∧
    (t ≠ WebinarType.past → startTimeInPast d now = false →
      payloadCarriesValidStatus d = false → determineWebinarStatus d t now = "scheduled") := by
  refine ⟨?_, ?_, ?_, ?_⟩
  · intro h; simp [determineWebinarStatus, h]
  · intro h1 h2; simp [determineWebinarStatus, h1, h2]
  · intro s h1 h2 h3 h4
    simp [determineWebinarStatus, h1, h2, h3, h4]
  · intro h1 h2 h3
    unfold determineWebinarStatus
    simp only [h1, if_false, h2]
    unfold payloadCarriesValidStatus at h3
    match hs : d.status with
    | none => simp [hs]
    | some s =>
      rw [hs] at h3
      simp only [decide_eq_false_iff_not] at h3
      simp [hs, h3]

/-- Closed witness for `c1_status_algorithm`: an upcoming webinar with a
future start time and remote status `"waiting"` keeps that status. -/
theorem c1_status_algorithm_witness :
    determineWebinarStatus
      { emptyDetails with start_time := some 100, status := some "waiting" }
      WebinarType.upcoming 5 = "waiting" :=
  (c1_status_algorithm
      { emptyDetails with start_time := some 100, status := some "waiting" }
      WebinarType.upcoming 5).2.2.1 "waiting"
    (by decide) (by decide) rfl (by decide)

/-- Helper: an arbitrarily long run of 429s followed by a success still
succeeds (there is no retry ceiling in `executeWithRateLimit`). -/
theorem executeWithRateLimit_replicate_429 (n : Nat) :
    ∀ s : RLState,
      (executeWithRateLimit
        (List.replicate n (CallOutcome.rl429 none) ++ [CallOutcome.ok]) s).1 =
      Except.ok () := by
  induction n with
  | zero => intro s; simp [executeWithRateLimit]
  | succ k ih =>
    intro s
    simp only [List.replicate_succ, List.cons_append, executeWithRateLimit]
    exact ih _

/-- C7: on a 429, `executeWithRateLimit` sets the blocked-until timestamp to
now plus the server's retry-after (default 60 s), suspends for that duration
(the clock advances by it), and recursively retries the same operation; it
succeeds after any number of 429s (no retry ceiling); and the per-second and
per-minute counters are incremented (via `recordCall`) exactly when the
operation succeeds — a non-429 failure leaves them as the pre-call wait left
them. -/
theorem c7_rate_limiter_429_retry_and_counters :
    (∀ (hdr : Option Nat) (rest : List CallOutcome) (s : RLState),
      executeWithRateLimit (CallOutcome.rl429 hdr :: rest) s =
        executeWithRateLimit rest
          { waitForRateLimit s with
              retryAfter := (waitForRateLimit s).clock + hdr.getD 60 * 1000,
              clock := (waitForRateLimit s).clock + hdr.getD 60 * 1000 }) ∧
    (∀ (n : Nat) (s : RLState),
      (executeWithRateLimit
        (List.replicate n (CallOutcome.rl429 none) ++ [CallOutcome.ok]) s).1 =
      Except.ok ()) ∧
    (∀ (rest : List CallOutcome) (s : RLState),
      (executeWithRateLimit (CallOutcome.ok :: rest) s).2 =
        recordCall (waitForRateLimit s)) ∧
    (∀ (e : String) (rest : List CallOutcome) (s : RLState),
      (executeWithRateLimit (CallOutcome.err e :: rest) s).2 = waitForRateLimit s) := by
  refine ⟨?_, ?_, ?_, ?_⟩
  · intro hdr rest s; rfl
  · intro n s; exact executeWithRateLimit_replicate_429 n s
  · intro rest s; rfl
  · intro e rest s; rfl

/-- Helper: the v1 loop issues at most `pageCount + budget` list calls. -/
theorem fetchWebinarsV1Go_calls_le (endpoint : Nat → ListPage) :
    ∀ (budget pageCount : Nat) (acc : List String),
      (fetchWebinarsV1Go endpoint budget pageCount acc).2 ≤ pageCount + budget := by
  intro budget
  induction budget with
  | zero => intro pageCount acc; simp [fetchWebinarsV1Go]
  | succ b ih =>
    intro pageCount acc
    have h := ih (pageCount + 1) (acc ++ (endpoint pageCount).webinars)
    cases htok : (endpoint pageCount).next_page_token with
    | none => simp [fetchWebinarsV1Go, htok]
    | some tok => simp only [fetchWebinarsV1Go, htok]; omega

/-- Helper: against the always-token endpoint the v2 loop never exits on its
own — with `fuel` list calls allowed it issues all of them and is still
polling. -/
theorem fetchPagesV2Go_alwaysToken (fuel : Nat) :
    ∀ (pageCount : Nat) (acc : List String),
      (fetchPagesV2Go alwaysTokenEndpoint fuel pageCount acc).1 = none ∧
      (fetchPagesV2Go alwaysTokenEndpoint fuel pageCount acc).2 = pageCount + fuel := by
  induction fuel with
  | zero => intro pageCount acc; simp [fetchPagesV2Go]
  | succ f ih =>
    intro pageCount acc
    have h := ih (pageCount + 1) (acc ++ [])
    refine ⟨?_, ?_⟩
    · simpa [fetchPagesV2Go, alwaysTokenEndpoint] using h.1
    · have h2 := h.2
      simp only [fetchPagesV2Go, alwaysTokenEndpoint]
      omega

/-- C8 counterexample: against an endpoint that always returns a continuation
token, the v2 enumeration loop is still polling after the 10-page ceiling —
given fuel for 11 list calls it issues all 11 and has not finished, so the
claimed ceiling does not bound this pagination loop. -/
theorem c8_counterexample :
    (fetchPagesV2Go alwaysTokenEndpoint 11 0 []).2 = 11 ∧
    (fetchPagesV2Go alwaysTokenEndpoint 11 0 []).1 = none := by
  refine ⟨?_, ?_⟩
  · exact (fetchPagesV2Go_alwaysToken 11 0 []).2
  · exact (fetchPagesV2Go_alwaysToken 11 0 []).1

/-- C8 amended: only the legacy (v1) list loop enforces the 10-page ceiling —
it issues at most 10 list calls for every endpoint and stops after exactly 10
against an always-token endpoint; the v2 enumeration loop has no ceiling and,
against an always-token endpoint, issues `fuel` list calls for every `fuel`
without ever completing. -/
theorem c8_v1_ceiling_v2_unbounded :
    (∀ endpoint : Nat → ListPage, (fetchWebinarsV1 endpoint).2 ≤ maxPages) ∧
    ((fetchWebinarsV1 alwaysTokenEndpoint).2 = 10) ∧
    (∀ fuel : Nat,
      (fetchPagesV2Go alwaysTokenEndpoint fuel 0 []).1 = none ∧
      (fetchPagesV2Go alwaysTokenEndpoint fuel 0 []).2 = fuel) := by
  refine ⟨?_, ?_, ?_⟩
  · intro endpoint
    simpa using fetchWebinarsV1Go_calls_le endpoint maxPages 0 []
  · decide
  · intro fuel
    simpa using fetchPagesV2Go_alwaysToken fuel 0 []

/-- Helper: `sameWebinarKey` is reflexive. -/
theorem sameWebinarKey_refl (a : WebinarRecord) : sameWebinarKey a a = true := by
  simp [sameWebinarKey]

/-- Helper: `sameWebinarKey` is symmetric. -/
theorem sameWebinarKey_symm (a b : WebinarRecord) :
    sameWebinarKey a b = sameWebinarKey b a := by
  simp only [sameWebinarKey]
  by_cases h1 : a.webinar_id = b.webinar_id <;>
    by_cases h2 : a.connection_id = b.connection_id <;>
      simp [h1, h2, BEq.comm]

/-- Helper: `sameWebinarKey` is transitive. -/
theorem sameWebinarKey_trans (a b c : WebinarRecord)
    (h1 : sameWebinarKey a b = true) (h2 : sameWebinarKey b c = true) :
    sameWebinarKey a c = true := by
  simp only [sameWebinarKey, Bool.and_eq_true, beq_iff_eq] at h1 h2 ⊢
  exact ⟨h1.1.trans h2.1, h1.2.trans h2.2⟩

/-- Helper: rows that do not match the key are untouched by the overwrite
map, so filtering for the key afterwards finds nothing among them. -/
theorem filter_map_overwrite_nil (w : WebinarRecord) :
    ∀ t : List WebinarRecord, (∀ r ∈ t, sameWebinarKey r w = false) →
      (t.map (fun r => if sameWebinarKey r w then w else r)).filter
        (fun r => sameWebinarKey r w) = [] := by
  intro t
  induction t with
  | nil => intro _; simp
  | cons a t ih =>
    intro h
    have ha := h a (List.mem_cons_self a t)
    have ht := fun r hr => h r (List.mem_cons_of_mem a hr)
    simp [ha, ih ht]

/-- Helper: after upserting `w` into a store with no duplicate keys, the rows
matching `w`'s key are exactly `[w]`. -/
theorem filter_upsert_self (w : WebinarRecord) :
    ∀ store : List WebinarRecord, KeyNodup store →
      (upsertWebinar store w).filter (fun r => sameWebinarKey r w) = [w] := by
  intro store
  induction store with
  | nil => intro _; simp [upsertWebinar, sameWebinarKey_refl]
  | cons a t ih =>
    intro hnd
    have hpair : ∀ r ∈ t, sameWebinarKey a r = false :=
      fun r hr => (List.pairwise_cons.mp hnd).1 r hr
    have hndt : KeyNodup t := (List.pairwise_cons.mp hnd).2
    by_cases ha : sameWebinarKey a w = true
    · have hnone : ∀ r ∈ t, sameWebinarKey r w = false := by
        intro r hr
        by_contra hc
        have hrw : sameWebinarKey r w = true := by
          cases h : sameWebinarKey r w
          · exact absurd h hc
          · rfl
        have : sameWebinarKey a r = true := by
          have hwr : sameWebinarKey w r = true := by rw [← sameWebinarKey_symm]; exact hrw
          exact sameWebinarKey_trans a w r ha hwr
        rw [hpair r hr] at this
        exact Bool.false_ne_true this
      have hany : (a :: t).any (fun r => sameWebinarKey r w) = true := by
        simp [List.any_cons, ha]
      simp only [upsertWebinar, hany, if_true, List.map_cons, ha, List.filter_cons,
        sameWebinarKey_refl]
      simp [filter_map_overwrite_nil w t hnone]
    · have ha' : sameWebinarKey a w = false := by
        cases h : sameWebinarKey a w
        · rfl
        · exact absurd h ha
      by_cases hany1 : t.any (fun r => sameWebinarKey r w) = true
      · have hany2 : (a :: t).any (fun r => sameWebinarKey r w) = true := by
          simp [List.any_cons, hany1]
        have iht := ih hndt
        simp only [upsertWebinar, hany1, if_true] at iht
        simp only [upsertWebinar, hany2, if_true, List.map_cons, ha', if_false,
          List.filter_cons, Bool.false_eq_true]
        simpa [ha'] using iht
      · have hanyf : t.any (fun r => sameWebinarKey r w) = false := by
          cases h : t.any (fun r => sameWebinarKey r w)
          · rfl
          · exact absurd h hany1
        have hany2 : (a :: t).any (fun r => sameWebinarKey r w) = false := by
          simp [List.any_cons, ha', hanyf]
        have hnonet : ∀ r ∈ t, sameWebinarKey r w = false := by
          intro r hr
          by_contra hc
          have : t.any (fun r => sameWebinarKey r w) = true :=
            List.any_eq_true.mpr ⟨r, hr, by
              cases h : sameWebinarKey r w
              · exact absurd h hc
              · rfl⟩
          rw [hanyf] at this
          exact Bool.false_ne_true this
        simp only [upsertWebinar, hany2, Bool.false_eq_true, if_false]
        have : (a :: t ++ [w]).filter (fun r => sameWebinarKey r w) =
            (a :: t).filter (fun r => sameWebinarKey r w) ++ [w] := by
          rw [show a :: t ++ [w] = (a :: t) ++ [w] from rfl, List.filter_append]
          simp [sameWebinarKey_refl]
        rw [this]
        have : (a :: t).filter (fun r => sameWebinarKey r w) = [] := by
          rw [List.filter_eq_nil_iff]
          intro r hr
          rcases List.mem_cons.mp hr with h | h
          · subst h; simp [ha']
          · simp [hnonet r h]
        simp [this]

/-- Helper: the upsert preserves key-uniqueness of the store. -/
theorem upsertWebinar_keyNodup (store : List WebinarRecord) (w : WebinarRecord)
    (h : KeyNodup store) : KeyNodup (upsertWebinar store w) := by
  unfold upsertWebinar
  by_cases hany : store.any (fun r => sameWebinarKey r w) = true
  · simp only [hany, if_true]
    unfold KeyNodup
    rw [List.pairwise_map]
    refine h.imp_of_mem ?_
    intro a b _ _ hab
    by_cases haw : sameWebinarKey a w = true
    · by_cases hbw : sameWebinarKey b w = true
      · exfalso
        have : sameWebinarKey a b = true :=
          sameWebinarKey_trans a w b haw (by rw [← sameWebinarKey_symm]; exact hbw)
        rw [hab] at this
        exact Bool.false_ne_true this
      · have hbw' : sameWebinarKey b w = false := by
          cases hx : sameWebinarKey b w
          · rfl
          · exact absurd hx hbw
        simp only [haw, if_true, hbw', Bool.false_eq_true, if_false]
        cases hx : sameWebinarKey w b
        · rfl
        · exfalso
          have : sameWebinarKey b w = true := by rw [sameWebinarKey_symm]; exact hx
          rw [hbw'] at this
          exact Bool.false_ne_true this
    · have haw' : sameWebinarKey a w = false := by
        cases hx : sameWebinarKey a w
        · rfl
        · exact absurd hx haw
      by_cases hbw : sameWebinarKey b w = true
      · simp only [haw', Bool.false_eq_true, if_false, hbw, if_true]
      · have hbw' : sameWebinarKey b w = false := by
          cases hx : sameWebinarKey b w
          · rfl
          · exact absurd hx hbw
        simp only [haw', hbw', Bool.false_eq_true, if_false]
        exact hab
  · have hany' : store.any (fun r => sameWebinarKey r w) = false := by
      cases hx : store.any (fun r => sameWebinarKey r w)
      · rfl
      · exact absurd hx hany
    simp only [hany', Bool.false_eq_true, if_false]
    unfold KeyNodup
    rw [List.pairwise_append]
    refine ⟨h, List.pairwise_singleton _ _, ?_⟩
    intro a ha b hb
    have hb' : b = w := by simpa using hb
    subst hb'
    have := List.any_eq_false.mp hany' a ha
    simpa using this

/-- C6: reconciling and upserting twice for the same natural key produces
exactly one stored record — upserting `w1` and then `w2` with the same
`(webinar_id, connection_id)` key into a key-unique store leaves exactly the
single record `w2` under that key: the second write fully overwrites the
first and no duplicate row is created. -/
theorem c6_upsert_idempotent_overwrite (store : List WebinarRecord)
    (w1 w2 : WebinarRecord) (hk : sameWebinarKey w1 w2 = true)
    (hnd : KeyNodup store) :
    (upsertWebinar (upsertWebinar store w1) w2).filter
      (fun r => sameWebinarKey r w2) = [w2] :=
  filter_upsert_self w2 (upsertWebinar store w1) (upsertWebinar_keyNodup store w1 hnd)

/-- Closed witness for `c6_upsert_idempotent_overwrite`: two payload versions
of webinar `"w1"` for connection `"conn"` upserted into the empty store leave
exactly one row, equal to the second payload. -/
theorem c6_upsert_idempotent_overwrite_witness :
    (upsertWebinar
      (upsertWebinar []
        (buildWebinarData { emptyDetails with id := some "w1" }
          (fetchAdditionalWebinarData WebinarType.past emptyAuxBundle)
          WebinarType.past "conn" 10 "finished"))
      (buildWebinarData { emptyDetails with id := some "w1", topic := some "t2" }
        (fetchAdditionalWebinarData WebinarType.past emptyAuxBundle)
        WebinarType.past "conn" 20 "finished")).filter
      (fun r => sameWebinarKey r
        (buildWebinarData { emptyDetails with id := some "w1", topic := some "t2" }
          (fetchAdditionalWebinarData WebinarType.past emptyAuxBundle)
          WebinarType.past "conn" 20 "finished")) =
    [buildWebinarData { emptyDetails with id := some "w1", topic := some "t2" }
      (fetchAdditionalWebinarData WebinarType.past emptyAuxBundle)
      WebinarType.past "conn" 20 "finished"] :=
  c6_upsert_idempotent_overwrite []
    (buildWebinarData { emptyDetails with id := some "w1" }
      (fetchAdditionalWebinarData WebinarType.past emptyAuxBundle)
      WebinarType.past "conn" 10 "finished")
    (buildWebinarData { emptyDetails with id := some "w1", topic := some "t2" }
      (fetchAdditionalWebinarData WebinarType.past emptyAuxBundle)
      WebinarType.past "conn" 20 "finished")
    (by decide) List.Pairwise.nil

/-- Helper: every row built by the enumeration-phase queue insert has
priority 5 and the insertion timestamp as `scheduled_at`. -/
theorem mkQueueRows_fields (sid : Nat) (ws : List (String × WebinarType))
    (now baseRid : Nat) (q : QueueRow) (hq : q ∈ mkQueueRows sid ws now baseRid) :
    q.priority = 5 ∧ q.scheduled_at = now := by
  unfold mkQueueRows at hq
  rcases List.mem_map.mp hq with ⟨p, _, hp⟩
  subst hp
  exact ⟨rfl, rfl⟩

/-- C10: every WorkItem inserted by the enumeration phase carries priority 5
and `scheduled_at` equal to the insertion timestamp, so any two items of one
run have equal priority, and the priority-descending, `scheduled_at`-
ascending drain comparison between them reduces to the `scheduled_at`
comparison alone — it never distinguishes items of the same run by
priority. -/
theorem c10_uniform_priority (sid : Nat) (ws : List (String × WebinarType))
    (now baseRid : Nat) (a b : QueueRow)
    (ha : a ∈ mkQueueRows sid ws now baseRid)
    (hb : b ∈ mkQueueRows sid ws now baseRid) :
    a.priority = 5 ∧ a.scheduled_at = now ∧ a.priority = b.priority ∧
    drainLE a b = decide (a.scheduled_at ≤ b.scheduled_at) := by
  obtain ⟨hap, has⟩ := mkQueueRows_fields sid ws now baseRid a ha
  obtain ⟨hbp, hbs⟩ := mkQueueRows_fields sid ws now baseRid b hb
  refine ⟨hap, has, hap.trans hbp.symm, ?_⟩
  unfold drainLE
  rw [hap, hbp]
  simp

/-- Closed witness for `c10_uniform_priority` on a two-item enumeration. -/
theorem c10_uniform_priority_witness :
    sampleRowA.priority = 5 ∧ sampleRowA.scheduled_at = 7 ∧
    sampleRowA.priority = sampleRowB.priority ∧
    drainLE sampleRowA sampleRowB =
      decide (sampleRowA.scheduled_at ≤ sampleRowB.scheduled_at) :=
  c10_uniform_priority 1 [("w1", WebinarType.past), ("w2", WebinarType.upcoming)] 7 1
    sampleRowA sampleRowB (by decide) (by decide)

/-- C5 counterexample: a *thrown* tracking-sources fetch for an upcoming
webinar does not yield an empty list — the `catch` only logs, so the
`trackingSources` key is never assigned (absent, not `[]`). -/
theorem c5_counterexample :
    (fetchAdditionalWebinarData WebinarType.upcoming
        { emptyAuxBundle with track := FetchOutcome.thrown }).trackingSources ≠
      some [] ∧
    (fetchAdditionalWebinarData WebinarType.upcoming
        { emptyAuxBundle with track := FetchOutcome.thrown }).trackingSources = none := by
  refine ⟨?_, rfl⟩
  intro h
  simp [fetchAdditionalWebinarData, emptyAuxBundle] at h

/-- C5 amended: no auxiliary fetch failure fails the item. A failed
registrant-count fetch (non-2xx or thrown) yields 0; a failed participant
fetch yields `(0, 0)`; for the tracking-sources, polls and Q&A fetches a
non-2xx response yields an empty list while a thrown error leaves the field
absent; and the primary resource sync proceeds normally in every case — with
the detail fetch succeeding, `processWebinar` marks the item completed
whatever the auxiliary outcomes were. -/
theorem c5_auxiliary_failures_default (b : AuxBundle)
    (det : String → Except String WebinarDetails) (auxo : String → AuxBundle)
    (item : QueueRow) (db : DB) (cid : String) (sid now : Nat) (d : WebinarDetails)
    (hreg : b.reg = FetchOutcome.httpError ∨ b.reg = FetchOutcome.thrown)
    (hpart : b.part = FetchOutcome.httpError ∨ b.part = FetchOutcome.thrown)
    (hdet : det item.webinar_id = Except.ok d) :
    fetchRegistrantCount b.reg = 0 ∧
    fetchParticipantData b.part = (0, 0) ∧
    ((fetchAdditionalWebinarData WebinarType.upcoming
        { b with track := FetchOutcome.httpError }).trackingSources = some []) ∧
    ((fetchAdditionalWebinarData WebinarType.upcoming
        { b with track := FetchOutcome.thrown }).trackingSources = none) ∧
    ((fetchAdditionalWebinarData WebinarType.past
        { b with polls := FetchOutcome.httpError }).polls = some []) ∧
    ((fetchAdditionalWebinarData WebinarType.past
        { b with polls := FetchOutcome.thrown }).polls = none) ∧
    ((fetchAdditionalWebinarData WebinarType.past
        { b with qa := FetchOutcome.httpError }).qa = some []) ∧
    ((fetchAdditionalWebinarData WebinarType.past
        { b with qa := FetchOutcome.thrown }).qa = none) ∧
    (processWebinar det auxo item db cid sid now).2 = true := by
  refine ⟨?_, ?_, rfl, rfl, rfl, rfl, rfl, rfl, ?_⟩
  · rcases hreg with h | h <;> rw [h] <;> rfl
  · rcases hpart with h | h <;> rw [h] <;> rfl
  · simp [processWebinar, hdet]

/-- Closed witness for `c5_auxiliary_failures_default` on a concrete bundle
whose registrant and participant fetches both throw. -/
theorem c5_auxiliary_failures_default_witness :
    fetchRegistrantCount thrownAuxBundle.reg = 0 ∧
    fetchParticipantData thrownAuxBundle.part = (0, 0) ∧
    ((fetchAdditionalWebinarData WebinarType.upcoming
        { thrownAuxBundle with track := FetchOutcome.httpError }).trackingSources =
      some []) ∧
    ((fetchAdditionalWebinarData WebinarType.upcoming
        { thrownAuxBundle with track := FetchOutcome.thrown }).trackingSources = none) ∧
    ((fetchAdditionalWebinarData WebinarType.past
        { thrownAuxBundle with polls := FetchOutcome.httpError }).polls = some []) ∧
    ((fetchAdditionalWebinarData WebinarType.past
        { thrownAuxBundle with polls := FetchOutcome.thrown }).polls = none) ∧
    ((fetchAdditionalWebinarData WebinarType.past
        { thrownAuxBundle with qa := FetchOutcome.httpError }).qa = some []) ∧
    ((fetchAdditionalWebinarData WebinarType.past
        { thrownAuxBundle with qa := FetchOutcome.thrown }).qa = none) ∧
    (processWebinar (fun _ => Except.ok emptyDetails) (fun _ => emptyAuxBundle)
      sampleRowA sampleDB "conn" 1 100).2 = true :=
  c5_auxiliary_failures_default thrownAuxBundle
    (fun _ => Except.ok emptyDetails) (fun _ => emptyAuxBundle)
    sampleRowA sampleDB "conn" 1 100 emptyDetails
    (Or.inr rfl) (Or.inr rfl) rfl

/-- C4 counterexample: a credential-resolution failure on a fresh run leaves
the SyncRun record in status `"running"` — the v2 outer catch returns the
500 response without marking any run failed, contradicting the claim that
the run record is marked failed with the exception message. -/
theorem c4_counterexample :
    (serveModel freshReq tokenFailEnv emptyDB).response.status = 500 ∧
    (serveModel freshReq tokenFailEnv emptyDB).db.logs.map SyncLog.status = ["running"] ∧
    ((serveModel freshReq tokenFailEnv emptyDB).db.logs.all
      (fun l => l.status != "failed")) = true := by
  refine ⟨rfl, rfl, rfl⟩

/-- Helper: when the credential resolution fails, the listing fails, or the
queue insert fails on a nonempty enumeration, `serveAfterInit` aborts with an
error, leaving the queue, the detail-fetch log and the sync-log table as it
found them. -/
theorem serveAfterInit_abort (cid : String) (sid : Nat) (env : Env) (db : DB)
    (hfail : (∃ e, env.tokenResult = Except.error e) ∨
      (∃ e, env.listResult = Except.error e) ∨
      (env.queueInsertOk = false ∧
        ∃ ps us, env.listResult = Except.ok (ps, us) ∧ 0 < ps.length + us.length)) :
    ∃ dbe msg, serveAfterInit cid sid env db = Except.error (dbe, msg) ∧
      dbe.queue = db.queue ∧ dbe.fetched = db.fetched ∧ dbe.logs = db.logs := by
  cases htok : env.tokenResult with
  | error e =>
    exact ⟨db, e, by simp [serveAfterInit, htok], rfl, rfl, rfl⟩
  | ok u =>
    cases hlist : env.listResult with
    | error e =>
      refine ⟨broadcast db sid "status" "Fetching webinar lists..." (some 0), e, ?_, rfl, rfl, rfl⟩
      simp [serveAfterInit, htok, hlist]
    | ok lists =>
      rcases hfail with ⟨e, he⟩ | ⟨e, he⟩ | ⟨hq, ps, us, he, hlen⟩
      · rw [htok] at he; exact absurd he (by simp)
      · rw [hlist] at he; exact absurd he (by simp)
      · rw [hlist] at he
        have hps : lists = (ps, us) := by injection he
        subst hps
        have hcond : 0 < (ps.map (fun w => (w, WebinarType.past)) ++
            us.map (fun w => (w, WebinarType.upcoming))).length ∧
            env.queueInsertOk = false := by
          constructor
          · simpa using hlen
          · exact hq
        refine ⟨broadcast (broadcast db sid "status" "Fetching webinar lists..." (some 0))
            sid "status"
            ("Queuing " ++ toString (ps.map (fun w => (w, WebinarType.past)) ++
                us.map (fun w => (w, WebinarType.upcoming))).length ++
              " webinars for processing...") (some 15),
          "Failed to queue webinars", ?_, rfl, rfl, rfl⟩
        simp only [serveAfterInit, htok, hlist]
        rw [if_pos hcond]

/-- C4 amended: every exception raised before enumeration completes
(credential resolution failure, listing failure, queue-insert failure on a
nonempty enumeration) aborts the run — no items are processed (the queue and
the detail-fetch log are untouched) and the HTTP response is a 500 carrying
an error message — but the SyncRun record is NOT marked failed: the set of
failed sync logs is unchanged (a fresh run's log stays `"running"`); only
the legacy v1 implementation marks the run failed on such errors. -/
theorem c4_preenumeration_abort (req : SyncRequest) (env : Env) (db : DB) (cid : String)
    (hc : req.connectionId = some cid)
    (hfail : (∃ e, env.tokenResult = Except.error e) ∨
      (∃ e, env.listResult = Except.error e) ∨
      (env.queueInsertOk = false ∧
        ∃ ps us, env.listResult = Except.ok (ps, us) ∧ 0 < ps.length + us.length)) :
    (serveModel req env db).response.status = 500 ∧
    (serveModel req env db).response.error.isSome = true ∧
    (serveModel req env db).db.queue = db.queue ∧
    (serveModel req env db).db.fetched = db.fetched ∧
    (serveModel req env db).db.logs.filter (fun l => l.status == "failed") =
      db.logs.filter (fun l => l.status == "failed") := by
  have hresp : ∀ m : String, (failureResponse m).status = 500 ∧
      (failureResponse m).error.isSome = true := by
    intro m
    unfold failureResponse jsOrStr
    by_cases hm : m = "" <;> simp [hm]
  cases hres : req.resumeSyncId with
  | some rid =>
    by_cases hany : db.syncState.any (fun s => s.sync_id == rid) = true
    · obtain ⟨dbe, msg, habort, hq, hf, hl⟩ := serveAfterInit_abort cid rid env
        (broadcast db rid "status" "Resuming sync..." none) hfail
      have hbody : serveBody req env db = Except.error (dbe, msg) := by
        simp [serveBody, hc, hres, hany, habort]
      unfold serveModel
      rw [hbody]
      simp only [broadcast] at hq hf hl
      exact ⟨(hresp msg).1, (hresp msg).2, hq, hf, by rw [hl]⟩
    · have hany' : db.syncState.any (fun s => s.sync_id == rid) = false := by
        cases hx : db.syncState.any (fun s => s.sync_id == rid)
        · rfl
        · exact absurd hx hany
      obtain ⟨dbe, msg, habort, hq, hf, hl⟩ := serveAfterInit_abort cid rid env db hfail
      have hbody : serveBody req env db = Except.error (dbe, msg) := by
        simp [serveBody, hc, hres, hany', habort]
      unfold serveModel
      rw [hbody]
      exact ⟨(hresp msg).1, (hresp msg).2, hq, hf, by rw [hl]⟩
  | none =>
    by_cases hcl : env.createLogOk = true
    · obtain ⟨dbe, msg, habort, hq, hf, hl⟩ := serveAfterInit_abort cid env.freshLogId env
        (broadcast { db with logs := db.logs ++
          [{ id := env.freshLogId, connection_id := cid, status := "running",
             sync_type := req.syncMode, webinars_synced := none }] }
          env.freshLogId "status" "Starting new sync..." none) hfail
      have hbody : serveBody req env db = Except.error (dbe, msg) := by
        simp only [serveBody, hc, hres, hcl, if_true]
        exact habort
      unfold serveModel
      rw [hbody]
      simp only [broadcast] at hq hf hl
      refine ⟨(hresp msg).1, (hresp msg).2, hq, hf, ?_⟩
      rw [hl]
      simp [List.filter_append]
    · have hcl' : env.createLogOk = false := by
        cases hx : env.createLogOk
        · rfl
        · exact absurd hx hcl
      have hbody : serveBody req env db =
          Except.error (db, "Failed to create sync log") := by
        simp [serveBody, hc, hres, hcl']
      unfold serveModel
      rw [hbody]
      exact ⟨(hresp _).1, (hresp _).2, rfl, rfl, rfl⟩

/-- Closed witness for `c4_preenumeration_abort`: the concrete
credential-failure run of `c4_counterexample`'s scenario aborts with a 500
and leaves queue, fetch log and failed-log set untouched. -/
theorem c4_preenumeration_abort_witness :
    (serveModel freshReq tokenFailEnv emptyDB).response.status = 500 ∧
    (serveModel freshReq tokenFailEnv emptyDB).response.error.isSome = true ∧
    (serveModel freshReq tokenFailEnv emptyDB).db.queue = emptyDB.queue ∧
    (serveModel freshReq tokenFailEnv emptyDB).db.fetched = emptyDB.fetched ∧
    (serveModel freshReq tokenFailEnv emptyDB).db.logs.filter
        (fun l => l.status == "failed") =
      emptyDB.logs.filter (fun l => l.status == "failed") :=
  c4_preenumeration_abort freshReq tokenFailEnv emptyDB "conn" rfl
    (Or.inl ⟨"Failed to decrypt access token", rfl⟩)

/-- C9 counterexample: on a failing run (here: a listing failure) the v2
response body carries only an `error` field — `success` is absent, not
`false`, contradicting the claim that the failure body contains
`success: false`. -/
theorem c9_counterexample :
    (serveModel freshReq listFailEnv emptyDB).response.status = 500 ∧
    (serveModel freshReq listFailEnv emptyDB).response.success = none ∧
    (serveModel freshReq listFailEnv emptyDB).response.error =
      some "Failed to fetch webinar list" := by
  refine ⟨rfl, rfl, rfl⟩

/-- C9 amended: every v2 response is either the success shape — 2xx (in fact
200) with `success: true`, the sync id, a synced count and a message — or
the failure shape: non-2xx (in fact 500) with an `error` field and NO
`success` field at all (only the legacy v1 implementation also sends
`success: false` on failure). -/
theorem c9_response_shape (req : SyncRequest) (env : Env) (db : DB) :
    ((serveModel req env db).response.status = 200 ∧
     (serveModel req env db).response.success = some true ∧
     (serveModel req env db).response.syncId.isSome = true ∧
     (serveModel req env db).response.webinarsSynced.isSome = true ∧
     (serveModel req env db).response.message.isSome = true) ∨
    ((serveModel req env db).response.status = 500 ∧
     (serveModel req env db).response.success = none ∧
     (serveModel req env db).response.error.isSome = true) := by
  unfold serveModel
  cases h : serveBody req env db with
  | ok r => left; exact ⟨rfl, rfl, rfl, rfl, rfl⟩
  | error r =>
    right
    refine ⟨rfl, rfl, ?_⟩
    unfold failureResponse jsOrStr
    by_cases hm : r.2 = "" <;> simp [hm]

set_option maxRecDepth 10000 in
/-- C2 (code bug): resuming run 1 with 2 of 10 items completed does NOT
skip enumeration — the v2 handler re-runs the enumeration phase
unconditionally, inserts ten fresh pending rows (so the already-completed
`w1` now has two queue rows for the run), drains 18 items instead of the
remaining 8, and re-fetches `w1`'s detail although its item had completed.
The claim's resumption contract (only the 8 pending items, no re-fetch, no
duplicate rows) is violated at this input. -/
theorem c2_resume_reenumerates :
    ((serveModel resumeReq resumeEnv interruptedDB).db.queue.filter
        (fun q => q.sync_id == 1)).length = 20 ∧
    ((serveModel resumeReq resumeEnv interruptedDB).db.queue.filter
        (fun q => q.sync_id == 1 && q.webinar_id == "w1")).length = 2 ∧
    (serveModel resumeReq resumeEnv interruptedDB).db.fetched.length = 18 ∧
    (serveModel resumeReq resumeEnv interruptedDB).db.fetched.contains "w1" = true := by
  refine ⟨?_, ?_, ?_, ?_⟩ <;> decide

/-- Helper: `find?` over a map that preserves the predicate. -/
theorem find_map_pred (g : QueueRow → QueueRow) (p : QueueRow → Bool)
    (h : ∀ r, p (g r) = p r) :
    ∀ q : List QueueRow, (q.map g).find? p = (q.find? p).map g := by
  intro q
  induction q with
  | nil => rfl
  | cons a t ih =>
    by_cases ha : p a = true
    · simp [List.find?_cons, h a, ha]
    · have ha' : p a = false := by
        cases hx : p a
        · rfl
        · exact absurd hx ha
      simp [List.find?_cons, h a, ha', ih]

/-- Helper: a keyed row update leaves `find?` for another id unchanged. -/
theorem find_update_other (rid rid' : Nat) (f : QueueRow → QueueRow)
    (hf : ∀ r, (f r).rid = r.rid) (hne : rid' ≠ rid) (q : List QueueRow) :
    (q.map (fun r => if r.rid == rid then f r else r)).find?
      (fun r => r.rid == rid') = q.find? (fun r => r.rid == rid') := by
  have hp : ∀ r : QueueRow,
      ((if r.rid == rid then f r else r).rid == rid') = (r.rid == rid') := by
    intro r
    by_cases hr : r.rid = rid
    · simp only [hr, beq_self_eq_true, if_true, hf r, hr]
    · simp [hr]
  rw [find_map_pred _ _ hp]
  cases hfind : q.find? (fun r => r.rid == rid') with
  | none => rfl
  | some r0 =>
    have hp0 := List.find?_some hfind
    have hr0 : r0.rid = rid' := by simpa using hp0
    have heq : (if r0.rid == rid then f r0 else r0) = r0 := by
      rw [if_neg]
      simp only [hr0, beq_iff_eq]
      exact hne
    simp [heq]
    intro h
    rw [hr0] at h
    exact absurd h hne

/-- Helper: a keyed row update applies its change to the row `find?` locates
under that id. -/
theorem find_update_same (rid : Nat) (f : QueueRow → QueueRow)
    (hf : ∀ r, (f r).rid = r.rid) (q : List QueueRow) :
    (q.map (fun r => if r.rid == rid then f r else r)).find?
      (fun r => r.rid == rid) = (q.find? (fun r => r.rid == rid)).map f := by
  have hp : ∀ r : QueueRow,
      ((if r.rid == rid then f r else r).rid == rid) = (r.rid == rid) := by
    intro r
    by_cases hr : r.rid = rid
    · simp only [hr, beq_self_eq_true, if_true, hf r, hr]
    · simp [hr]
  rw [find_map_pred _ _ hp]
  cases hfind : q.find? (fun r => r.rid == rid) with
  | none => rfl
  | some r0 =>
    have hp0 := List.find?_some hfind
    have hr0 : r0.rid = rid := by simpa using hp0
    simp [hr0]

/-- Helper: processing one item never touches another item's queue row. -/
theorem processWebinar_rowById_other (det : String → Except String WebinarDetails)
    (auxo : String → AuxBundle) (item : QueueRow) (db : DB) (cid : String)
    (sid now rid : Nat) (hne : rid ≠ item.rid) :
    rowById (processWebinar det auxo item db cid sid now).1.queue rid =
      rowById db.queue rid := by
  cases hdet : det item.webinar_id with
  | ok d =>
    simp only [processWebinar, hdet, rowById, broadcast, updateQueueRow]
    rw [find_update_other item.rid rid
        (fun r => { r with processing_status := "completed", completed_at := some now })
        (fun r => rfl) hne,
      find_update_other item.rid rid
        (fun r => { r with processing_status := "processing", started_at := some now })
        (fun r => rfl) hne]
  | error e =>
    simp only [processWebinar, hdet, rowById, broadcast, updateQueueRow]
    rw [find_update_other item.rid rid
        (fun r => { r with processing_status := "failed", error_message := some e, retry_count := item.retry_count + 1 })
        (fun r => rfl) hne,
      find_update_other item.rid rid
        (fun r => { r with processing_status := "processing", started_at := some now })
        (fun r => rfl) hne]

/-- Helper: a failing detail fetch leaves the item's row marked failed, with
the error message recorded, `retry_count` incremented from the snapshot row
and the processing start stamp kept. -/
theorem processWebinar_rowById_fail (det : String → Except String WebinarDetails)
    (auxo : String → AuxBundle) (item : QueueRow) (db : DB) (cid : String)
    (sid now : Nat) (e : String)
    (hrow : rowById db.queue item.rid = some item)
    (hfail : det item.webinar_id = Except.error e) :
    rowById (processWebinar det auxo item db cid sid now).1.queue item.rid =
      some (failedRow item now e) := by
  unfold rowById at hrow
  simp only [processWebinar, hfail, rowById, broadcast, updateQueueRow]
  rw [find_update_same item.rid
      (fun r => { r with processing_status := "failed", error_message := some e, retry_count := item.retry_count + 1 })
      (fun r => rfl),
    find_update_same item.rid
      (fun r => { r with processing_status := "processing", started_at := some now })
      (fun r => rfl),
    hrow]
  rfl

/-- Helper: a failing detail fetch publishes the error progress event. -/
theorem processWebinar_error_event (det : String → Except String WebinarDetails)
    (auxo : String → AuxBundle) (item : QueueRow) (db : DB) (cid : String)
    (sid now : Nat) (e : String)
    (hfail : det item.webinar_id = Except.error e) :
    mkEvent sid "error" ("Failed to process webinar " ++ item.webinar_id ++ ": " ++ e)
        none ∈ (processWebinar det auxo item db cid sid now).1.events := by
  simp only [processWebinar, hfail, broadcast]
  exact List.mem_append_right _ (List.mem_singleton.mpr rfl)

/-- Helper: processing one item only appends to the progress events. -/
theorem processWebinar_events_prefix (det : String → Except String WebinarDetails)
    (auxo : String → AuxBundle) (item : QueueRow) (db : DB) (cid : String)
    (sid now : Nat) :
    ∃ tail, (processWebinar det auxo item db cid sid now).1.events =
      db.events ++ tail := by
  cases hdet : det item.webinar_id with
  | ok d =>
    refine ⟨[mkEvent sid "webinar" ("Processed webinar: " ++ d.topic.getD "") none], ?_⟩
    simp [processWebinar, hdet, broadcast, updateQueueRow]
  | error e =>
    refine ⟨[mkEvent sid "error"
      ("Failed to process webinar " ++ item.webinar_id ++ ": " ++ e) none], ?_⟩
    simp [processWebinar, hdet, broadcast, updateQueueRow]

/-- Helper: the drain loop only appends to the progress events. -/
theorem drainGo_events_prefix (det : String → Except String WebinarDetails)
    (auxo : String → AuxBundle) (cid : String) (sid now total : Nat) :
    ∀ (items : List QueueRow) (db : DB) (p f : Nat),
      ∃ tail, (drainGo det auxo cid sid now total items db p f).1.events =
        db.events ++ tail := by
  intro items
  induction items with
  | nil => intro db p f; exact ⟨[], (List.append_nil db.events).symm⟩
  | cons a rest ih =>
    intro db p f
    obtain ⟨t1, ht1⟩ := processWebinar_events_prefix det auxo a db cid sid now
    rcases hpw : processWebinar det auxo a db cid sid now with ⟨db', ok⟩
    rw [hpw] at ht1
    simp only at ht1
    cases ok with
    | true =>
      obtain ⟨t2, ht2⟩ := ih (updateSyncStateProcessed (broadcast db' sid "progress"
        ("Processing webinars... (" ++ toString (p + 1) ++ "/" ++ toString total ++ ")")
        (some (15 + 80 * (p + 1) / total))) sid (p + 1)) (p + 1) f
      refine ⟨t1 ++ ([mkEvent sid "progress"
        ("Processing webinars... (" ++ toString (p + 1) ++ "/" ++ toString total ++ ")")
        (some (15 + 80 * (p + 1) / total))] ++ t2), ?_⟩
      simp only [drainGo, hpw, if_true]
      rw [ht2]
      simp only [updateSyncStateProcessed, broadcast]
      rw [ht1]
      simp [List.append_assoc]
    | false =>
      obtain ⟨t2, ht2⟩ := ih db' p (f + 1)
      refine ⟨t1 ++ t2, ?_⟩
      simp only [drainGo, hpw, Bool.false_eq_true, if_false]
      rw [ht2, ht1, List.append_assoc]

/-- Helper: the drain loop leaves rows untouched whose id belongs to none of
the items it drains. -/
theorem drainGo_rowById_untouched (det : String → Except String WebinarDetails)
    (auxo : String → AuxBundle) (cid : String) (sid now total : Nat) :
    ∀ (items : List QueueRow) (db : DB) (p f rid : Nat),
      (∀ j ∈ items, j.rid ≠ rid) →
      rowById (drainGo det auxo cid sid now total items db p f).1.queue rid =
        rowById db.queue rid := by
  intro items
  induction items with
  | nil => intro db p f rid _; rfl
  | cons a rest ih =>
    intro db p f rid hdis
    have ha : a.rid ≠ rid := hdis a (List.mem_cons_self a rest)
    have hrest : ∀ j ∈ rest, j.rid ≠ rid :=
      fun j hj => hdis j (List.mem_cons_of_mem a hj)
    have hstep : rowById (processWebinar det auxo a db cid sid now).1.queue rid =
        rowById db.queue rid :=
      processWebinar_rowById_other det auxo a db cid sid now rid (Ne.symm ha)
    rcases hpw : processWebinar det auxo a db cid sid now with ⟨db', ok⟩
    rw [hpw] at hstep
    simp only at hstep
    cases ok with
    | true =>
      simp only [drainGo, hpw, if_true]
      rw [ih _ (p + 1) f rid hrest]
      simpa [updateSyncStateProcessed, broadcast, rowById] using hstep
    | false =>
      simp only [drainGo, hpw, Bool.false_eq_true, if_false]
      rw [ih _ p (f + 1) rid hrest]
      exact hstep

/-- Helper: the drain loop visits every item: the two counters advance by
exactly the number of drained items. -/
theorem drainGo_counts (det : String → Except String WebinarDetails)
    (auxo : String → AuxBundle) (cid : String) (sid now total : Nat) :
    ∀ (items : List QueueRow) (db : DB) (p f : Nat),
      (drainGo det auxo cid sid now total items db p f).2.1 +
        (drainGo det auxo cid sid now total items db p f).2.2 =
      p + f + items.length := by
  intro items
  induction items with
  | nil => intro db p f; simp [drainGo]
  | cons a rest ih =>
    intro db p f
    rcases hpw : processWebinar det auxo a db cid sid now with ⟨db', ok⟩
    cases ok with
    | true =>
      simp only [drainGo, hpw, if_true, List.length_cons]
      rw [ih]
      omega
    | false =>
      simp only [drainGo, hpw, Bool.false_eq_true, if_false, List.length_cons]
      rw [ih]
      omega

/-- Helper: a failing detail fetch makes `processWebinar` report failure. -/
theorem processWebinar_fail_flag (det : String → Except String WebinarDetails)
    (auxo : String → AuxBundle) (item : QueueRow) (db : DB) (cid : String)
    (sid now : Nat) (e : String) (hfail : det item.webinar_id = Except.error e) :
    (processWebinar det auxo item db cid sid now).2 = false := by
  simp [processWebinar, hfail]

/-- Helper: in a drain over snapshot rows with pairwise-distinct row ids, a
row whose detail fetch throws ends in the failed state with the error event
published, and no later item disturbs it. -/
theorem drainGo_failed_item (det : String → Except String WebinarDetails)
    (auxo : String → AuxBundle) (cid : String) (sid now total : Nat) :
    ∀ (items : List QueueRow) (db : DB) (p f : Nat) (item : QueueRow) (e : String),
      item ∈ items → (items.map QueueRow.rid).Nodup →
      rowById db.queue item.rid = some item →
      det item.webinar_id = Except.error e →
      rowById (drainGo det auxo cid sid now total items db p f).1.queue item.rid =
        some (failedRow item now e) ∧
      mkEvent sid "error" ("Failed to process webinar " ++ item.webinar_id ++ ": " ++ e)
          none ∈ (drainGo det auxo cid sid now total items db p f).1.events := by
  intro items
  induction items with
  | nil =>
    intro db p f item e hmem
    exact absurd hmem (List.not_mem_nil item)
  | cons a rest ih =>
    intro db p f item e hmem hnd hrow hfail
    have hnd' := hnd
    rw [List.map_cons, List.nodup_cons] at hnd'
    rcases List.mem_cons.mp hmem with heq | hmem'
    · subst heq
      have hflag := processWebinar_fail_flag det auxo item db cid sid now e hfail
      have hrowf := processWebinar_rowById_fail det auxo item db cid sid now e hrow hfail
      have hev := processWebinar_error_event det auxo item db cid sid now e hfail
      rcases hpw : processWebinar det auxo item db cid sid now with ⟨db', ok⟩
      rw [hpw] at hflag hrowf hev
      simp only at hflag hrowf hev
      subst hflag
      have hdis : ∀ j ∈ rest, j.rid ≠ item.rid := by
        intro j hj
        intro hc
        exact hnd'.1 (hc ▸ List.mem_map_of_mem QueueRow.rid hj)
      constructor
      · simp only [drainGo, hpw, Bool.false_eq_true, if_false]
        rw [drainGo_rowById_untouched det auxo cid sid now total rest db' p (f + 1)
          item.rid hdis]
        exact hrowf
      · simp only [drainGo, hpw, Bool.false_eq_true, if_false]
        obtain ⟨tail, htail⟩ := drainGo_events_prefix det auxo cid sid now total rest
          db' p (f + 1)
        rw [htail]
        exact List.mem_append_left _ hev
    · have hne : a.rid ≠ item.rid := by
        intro hc
        exact hnd'.1 (hc ▸ List.mem_map_of_mem QueueRow.rid hmem')
      have hrow' : rowById (processWebinar det auxo a db cid sid now).1.queue item.rid =
          some item := by
        rw [processWebinar_rowById_other det auxo a db cid sid now item.rid (Ne.symm hne)]
        exact hrow
      rcases hpw : processWebinar det auxo a db cid sid now with ⟨db', ok⟩
      rw [hpw] at hrow'
      simp only at hrow'
      cases ok with
      | true =>
        simp only [drainGo, hpw, if_true]
        exact ih _ (p + 1) f item e hmem' hnd'.2 hrow' hfail
      | false =>
        simp only [drainGo, hpw, Bool.false_eq_true, if_false]
        exact ih _ p (f + 1) item e hmem' hnd'.2 hrow' hfail

/-- Helper: after `completeLog`, every log row for the run carries status
`"completed"`. -/
theorem completeLog_marks (db : DB) (sid total : Nat) :
    ((completeLog db sid total).logs.all
      (fun l => !(l.id == sid) || (l.status == "completed"))) = true := by
  rw [List.all_eq_true]
  intro l hl
  rcases List.mem_map.mp hl with ⟨l0, _, hmap⟩
  subst hmap
  by_cases h : l0.id = sid <;> simp [h]

/-- Helper: with the credential, the listing and the queue insert all
succeeding, `serveAfterInit` completes the run: it returns the success triple
with the enumerated count, and every log row of the run is `"completed"`. -/
theorem serveAfterInit_success (cid : String) (sid : Nat) (env : Env) (db : DB)
    (ps us : List String)
    (htok : env.tokenResult = Except.ok ())
    (hlist : env.listResult = Except.ok (ps, us))
    (hq : env.queueInsertOk = true) :
    ∃ dbf n, serveAfterInit cid sid env db = Except.ok (dbf, sid, n) ∧
      n = ps.length + us.length ∧
      (dbf.logs.all (fun l => !(l.id == sid) || (l.status == "completed"))) = true := by
  unfold serveAfterInit
  rw [htok, hlist]
  simp only []
  rw [if_neg]
  · refine ⟨_, _, rfl, by simp, ?_⟩
    simp only [broadcast]
    exact completeLog_marks _ sid _
  · intro hcond
    rw [hq] at hcond
    exact absurd hcond.2 (by simp)

/-- Helper: on the all-success path the v2 handler answers with the success
response for the (resumed or fresh) sync id and the enumerated count, and
marks that run's log rows completed. -/
theorem serveModel_success (req : SyncRequest) (env : Env) (db : DB) (cid : String)
    (sid : Nat) (ps us : List String)
    (hc : req.connectionId = some cid)
    (hsid : req.resumeSyncId = some sid ∨ (req.resumeSyncId = none ∧ sid = env.freshLogId))
    (htok : env.tokenResult = Except.ok ())
    (hlist : env.listResult = Except.ok (ps, us))
    (hcl : env.createLogOk = true)
    (hq : env.queueInsertOk = true) :
    (serveModel req env db).response = successResponse sid (ps.length + us.length) ∧
    ((serveModel req env db).db.logs.all
      (fun l => !(l.id == sid) || (l.status == "completed"))) = true := by
  rcases hsid with hres | ⟨hres, hfresh⟩
  · by_cases hany : db.syncState.any (fun s => s.sync_id == sid) = true
    · obtain ⟨dbf, n, hok, hn, hall⟩ := serveAfterInit_success cid sid env
        (broadcast db sid "status" "Resuming sync..." none) ps us htok hlist hq
      have hbody : serveBody req env db = Except.ok (dbf, sid, n) := by
        simp [serveBody, hc, hres, hany, hok]
      unfold serveModel
      rw [hbody]
      exact ⟨by rw [hn], hall⟩
    · have hany' : db.syncState.any (fun s => s.sync_id == sid) = false := by
        cases hx : db.syncState.any (fun s => s.sync_id == sid)
        · rfl
        · exact absurd hx hany
      obtain ⟨dbf, n, hok, hn, hall⟩ := serveAfterInit_success cid sid env db ps us
        htok hlist hq
      have hbody : serveBody req env db = Except.ok (dbf, sid, n) := by
        simp [serveBody, hc, hres, hany', hok]
      unfold serveModel
      rw [hbody]
      exact ⟨by rw [hn], hall⟩
  · subst hfresh
    obtain ⟨dbf, n, hok, hn, hall⟩ := serveAfterInit_success cid env.freshLogId env
      (broadcast { db with logs := db.logs ++
        [{ id := env.freshLogId, connection_id := cid, status := "running",
           sync_type := req.syncMode, webinars_synced := none }] }
        env.freshLogId "status" "Starting new sync..." none) ps us htok hlist hq
    have hbody : serveBody req env db = Except.ok (dbf, env.freshLogId, n) := by
      simp only [serveBody, hc, hres, hcl, if_true]
      exact hok
    unfold serveModel
    rw [hbody]
    exact ⟨by rw [hn], hall⟩

/-- C3: in a drain over snapshot items with distinct row ids, an item whose
detail fetch throws is marked failed with the error message recorded and
`retry_count` incremented, the error progress event is published, the loop
still visits every item (the counters advance by the full queue length), and
on the all-success environment path the run-level status is still set to
`"completed"` with a success response. -/
theorem c3_item_failure_isolation (det : String → Except String WebinarDetails)
    (auxo : String → AuxBundle) (cid : String) (sid now total p f : Nat)
    (items : List QueueRow) (db : DB) (item : QueueRow) (e : String)
    (req : SyncRequest) (env : Env) (db2 : DB) (cid2 : String) (sid2 : Nat)
    (ps us : List String)
    (hmem : item ∈ items) (hnd : (items.map QueueRow.rid).Nodup)
    (hrow : rowById db.queue item.rid = some item)
    (hfail : det item.webinar_id = Except.error e)
    (hc : req.connectionId = some cid2)
    (hsid : req.resumeSyncId = some sid2 ∨
      (req.resumeSyncId = none ∧ sid2 = env.freshLogId))
    (htok : env.tokenResult = Except.ok ())
    (hlist : env.listResult = Except.ok (ps, us))
    (hcl : env.createLogOk = true)
    (hq : env.queueInsertOk = true) :
    rowById (drainGo det auxo cid sid now total items db p f).1.queue item.rid =
      some (failedRow item now e) ∧
    mkEvent sid "error" ("Failed to process webinar " ++ item.webinar_id ++ ": " ++ e)
        none ∈ (drainGo det auxo cid sid now total items db p f).1.events ∧
    (drainGo det auxo cid sid now total items db p f).2.1 +
        (drainGo det auxo cid sid now total items db p f).2.2 =
      p + f + items.length ∧
    (serveModel req env db2).response = successResponse sid2 (ps.length + us.length) ∧
    ((serveModel req env db2).db.logs.all
      (fun l => !(l.id == sid2) || (l.status == "completed"))) = true := by
  obtain ⟨h1, h2⟩ := drainGo_failed_item det auxo cid sid now total items db p f item e
    hmem hnd hrow hfail
  obtain ⟨h4, h5⟩ := serveModel_success req env db2 cid2 sid2 ps us hc hsid htok hlist
    hcl hq
  exact ⟨h1, h2, drainGo_counts det auxo cid sid now total items db p f, h4, h5⟩

/-- Closed witness for `c3_item_failure_isolation`: in a three-item batch
where item 2's detail fetch throws, item 2 ends failed with retry count 1 and
an error event, all three items are visited, and the all-success serve path
still answers 200 with the run completed. -/
theorem c3_item_failure_isolation_witness :
    rowById (drainGo failW2 (fun _ => emptyAuxBundle) "conn" 1 100 3 threeRows
        threeRowDB 0 0).1.queue rowW2.rid =
      some (failedRow rowW2 100 "boom") ∧
    mkEvent 1 "error" ("Failed to process webinar " ++ rowW2.webinar_id ++ ": " ++ "boom")
        none ∈
      (drainGo failW2 (fun _ => emptyAuxBundle) "conn" 1 100 3 threeRows
        threeRowDB 0 0).1.events ∧
    (drainGo failW2 (fun _ => emptyAuxBundle) "conn" 1 100 3 threeRows
        threeRowDB 0 0).2.1 +
      (drainGo failW2 (fun _ => emptyAuxBundle) "conn" 1 100 3 threeRows
        threeRowDB 0 0).2.2 = 0 + 0 + threeRows.length ∧
    (serveModel freshReq okEnv emptyDB).response =
      successResponse 99 (["w1"].length + ([] : List String).length) ∧
    ((serveModel freshReq okEnv emptyDB).db.logs.all
      (fun l => !(l.id == 99) || (l.status == "completed"))) = true :=
  c3_item_failure_isolation failW2 (fun _ => emptyAuxBundle) "conn" 1 100 3 0 0
    threeRows threeRowDB rowW2 "boom" freshReq okEnv emptyDB "conn" 99 ["w1"] []
    (by decide) (by decide) (by decide) rfl rfl (Or.inr ⟨rfl, rfl⟩) rfl rfl rfl rfl
